import Mathlib

/-!
Verification development for the bitbucket-pipeline-monitor repository.

The file shallowly embeds the model normalizer (bitbucket_monitor/models.py),
the API-client resolution step (bitbucket_monitor/api.py), the display masking
(bitbucket_monitor/display.py) and the refresh loop of the CLI
(bitbucket_monitor/cli.py), and proves or refutes the frozen claims about them.

Python datetimes are modelled as an absolute microsecond count together with an
awareness flag: datetime.fromisoformat produces an aware value exactly when the
input carries a UTC offset, datetime.now() is naive, and subtraction of a naive
from an aware datetime (or vice versa) raises a TypeError, which we model as an
error value.
-/

/-- A Python datetime: microseconds on a linear time line (UTC microseconds for
aware values, local-clock microseconds for naive values) plus the awareness
flag carried by tzinfo. -/
structure PyDatetime where
  micros : Int
  aware : Bool
deriving DecidableEq, Repr

/-- Python subtraction of datetimes: defined when both are naive or both are
aware, a TypeError otherwise. -/
def pySub (a b : PyDatetime) : Except String Int :=
  if a.aware = b.aware then Except.ok (a.micros - b.micros)
  else Except.error "TypeError: cannot subtract offset-naive and offset-aware datetimes"

/-- int(timedelta.total_seconds()): microseconds to whole seconds, truncated
toward zero as Python int() does on a float. -/
def truncToSeconds (m : Int) : Int :=
  if 0 ≤ m then m.ediv 1000000 else -((-m).ediv 1000000)

/-- str.replace("Z", "+00:00"): every occurrence of the character Z is replaced
by the explicit UTC offset. -/
def zReplace (s : String) : String :=
  String.mk (s.data.foldr (fun c acc => if c = 'Z' then '+' :: '0' :: '0' :: ':' :: '0' :: '0' :: acc else c :: acc) [])

/-- Numeric value of a decimal digit character, if it is one. -/
def digitVal (c : Char) : Option Nat :=
  if '0' ≤ c ∧ c ≤ '9' then some (c.toNat - 48) else none

/-- Read exactly n decimal digits from the front of the character list,
accumulating their value. -/
def readDigits : Nat → List Char → Nat → Option (Nat × List Char)
  | 0, cs, acc => some (acc, cs)
  | _ + 1, [], _ => none
  | n + 1, c :: cs, acc =>
    match digitVal c with
    | some d => readDigits n cs (acc * 10 + d)
    | none => none

/-- Consume one expected character. -/
def expectChar (c : Char) : List Char → Option (List Char)
  | [] => none
  | x :: xs => if x = c then some xs else none

/-- Take at most n leading digits, returning them and the rest. -/
def takeDigits : Nat → List Char → List Nat × List Char
  | 0, cs => ([], cs)
  | _ + 1, [] => ([], [])
  | n + 1, c :: cs =>
    match digitVal c with
    | some d =>
      let (ds, rest) := takeDigits n cs
      (d :: ds, rest)
    | none => ([], c :: cs)

/-- Value of a fractional-second digit list, padded on the right to
microsecond (six-digit) precision. -/
def fracMicros (ds : List Nat) : Nat :=
  (ds.foldl (fun acc d => acc * 10 + d) 0) * 10 ^ (6 - ds.length)

/-- Gregorian leap-year test. -/
def isLeapYear (y : Nat) : Bool :=
  y % 4 = 0 && (y % 100 ≠ 0 || y % 400 = 0)

/-- Number of days in a month of the proleptic Gregorian calendar. -/
def daysInMonth (y m : Nat) : Nat :=
  if m = 2 then (if isLeapYear y then 29 else 28)
  else if m = 4 ∨ m = 6 ∨ m = 9 ∨ m = 11 then 30
  else 31

/-- Days since the epoch 1970-01-01 of a civil date (valid for year ≥ 1). -/
def daysFromCivil (y m d : Nat) : Int :=
  let y2 := if m ≤ 2 then y - 1 else y
  let era := y2 / 400
  let yoe := y2 % 400
  let mp := (m + 9) % 12
  let doy := (153 * mp + 2) / 5 + d - 1
  let doe := yoe * 365 + yoe / 4 - yoe / 100 + doy
  (era * 146097 + doe : Int) - 719468

/-- Parse the optional UTC-offset suffix ±HH:MM; returns the signed offset in
seconds. Fails on a malformed or out-of-range offset. -/
def parseOffset (cs : List Char) : Option (Option Int) :=
  match cs with
  | [] => some none
  | sign :: rest =>
    if sign = '+' ∨ sign = '-' then
      match readDigits 2 rest 0 with
      | none => none
      | some (oh, rest1) =>
        match expectChar ':' rest1 with
        | none => none
        | some rest2 =>
          match readDigits 2 rest2 0 with
          | none => none
          | some (om, rest3) =>
            if rest3 = [] ∧ oh < 24 ∧ om < 60 then
              let secs : Int := oh * 3600 + om * 60
              some (some (if sign = '-' then -secs else secs))
            else none
    else none

/-- Parse the time-of-day part HH[:MM[:SS[.ffffff]]] followed by the optional
offset; returns microseconds into the day and the offset. -/
def parseTimePart (cs : List Char) : Option (Nat × Option Int) :=
  match readDigits 2 cs 0 with
  | none => none
  | some (hh, rest) =>
    let (mi, ss, fr, rest4) :=
      match expectChar ':' rest with
      | none => (0, 0, 0, rest)
      | some rest1 =>
        match readDigits 2 rest1 0 with
        | none => (0, 0, 0, rest)
        | some (mm, rest2) =>
          match expectChar ':' rest2 with
          | none => (mm, 0, 0, rest2)
          | some rest3 =>
            match readDigits 2 rest3 0 with
            | none => (mm, 0, 0, rest2)
            | some (sv, restS) =>
              match expectChar '.' restS with
              | none => (mm, sv, 0, restS)
              | some restF =>
                let (ds, restD) := takeDigits 6 restF
                if ds = [] then (mm, sv, 0, restS)
                else (mm, sv, fracMicros ds, restD)
    if hh < 24 ∧ mi < 60 ∧ ss < 60 then
      match parseOffset rest4 with
      | none => none
      | some off => some ((hh * 3600 + mi * 60 + ss) * 1000000 + fr, off)
    else none

/-- datetime.fromisoformat, modelled for the shapes the monitor feeds it:
YYYY-MM-DD, optionally followed by a single separator character and
HH[:MM[:SS[.ffffff]]], optionally followed by a ±HH:MM offset. An offset makes
the result aware; otherwise it is naive. Anything else is a ValueError. -/
def fromisoformat (s : String) : Except String PyDatetime :=
  let fail : Except String PyDatetime :=
    Except.error ("Invalid isoformat string: " ++ s)
  match readDigits 4 s.data 0 with
  | none => fail
  | some (y, r1) =>
    match expectChar '-' r1 with
    | none => fail
    | some r2 =>
      match readDigits 2 r2 0 with
      | none => fail
      | some (mo, r3) =>
        match expectChar '-' r3 with
        | none => fail
        | some r4 =>
          match readDigits 2 r4 0 with
          | none => fail
          | some (dy, r5) =>
            if 1 ≤ y ∧ 1 ≤ mo ∧ mo ≤ 12 ∧ 1 ≤ dy ∧ dy ≤ daysInMonth y mo then
              let dayMicros : Int := daysFromCivil y mo dy * 86400000000
              match r5 with
              | [] => Except.ok { micros := dayMicros, aware := false }
              | _ :: r6 =>
                match parseTimePart r6 with
                | none => fail
                | some (tm, none) =>
                  Except.ok { micros := dayMicros + tm, aware := false }
                | some (tm, some off) =>
                  Except.ok { micros := dayMicros + tm - off * 1000000, aware := true }
            else fail

/-!
Raw API documents (Python dicts with possibly-absent keys), as consumed by
Pipeline.from_api_response in models.py. Absent keys are Option none; the
dict .get defaults of the source become Option.getD.
-/

/-- Raw author subobject of a commit document. -/
structure RawAuthor where
  display_name : Option String := none
deriving DecidableEq, Repr

/-- Raw commit subobject of a pipeline document. -/
structure RawCommitDoc where
  hash : Option String := none
  message : Option String := none
  author : Option RawAuthor := none
  date : Option String := none
deriving DecidableEq, Repr

/-- Raw state subobject holding a status name. -/
structure RawState where
  name : Option String := none
deriving DecidableEq, Repr

/-- Raw selector subobject of a target. -/
structure RawSelector where
  pattern : Option String := none
deriving DecidableEq, Repr

/-- Raw target subobject of a pipeline document. -/
structure RawTarget where
  ref_name : Option String := none
  selector : Option RawSelector := none
deriving DecidableEq, Repr

/-- Raw repository subobject of a pipeline document. -/
structure RawRepo where
  full_name : Option String := none
deriving DecidableEq, Repr

/-- Raw pipeline variable document. -/
structure RawVarDoc where
  key : Option String := none
  value : Option String := none
  secured : Option Bool := none
deriving DecidableEq, Repr

/-- Raw pipeline step document. -/
structure RawStepDoc where
  name : Option String := none
  state : Option RawState := none
  started_on : Option String := none
  completed_on : Option String := none
deriving DecidableEq, Repr

/-- Raw pipeline document, after cli.py has attached the steps and variables
arrays fetched separately. The field vars models the dict key named
variables, which Lean reserves. -/
structure RawPipelineDoc where
  uuid : Option String := none
  repository : Option RawRepo := none
  target : Option RawTarget := none
  state : Option RawState := none
  created_on : Option String := none
  completed_on : Option String := none
  commit : Option RawCommitDoc := none
  vars : List RawVarDoc := []
  steps : List RawStepDoc := []
deriving DecidableEq, Repr

/-!
The pydantic models of models.py.
-/

/-- CommitInfo model: information about the commit that triggered the run. -/
structure CommitInfo where
  hash : String
  message : String
  author : String
  date : PyDatetime
deriving DecidableEq, Repr

/-- PipelineVariable model: a variable used in the pipeline execution. -/
structure PipelineVariable where
  key : String
  value : String
  secured : Bool
deriving DecidableEq, Repr

/-- PipelineStep model: a step in the pipeline execution. -/
structure PipelineStep where
  name : String
  status : String
  start_time : Option PyDatetime := none
  end_time : Option PyDatetime := none
  duration_seconds : Option Int := none
deriving DecidableEq, Repr

/-- Pipeline model: information about a pipeline execution. -/
structure Pipeline where
  uuid : String
  repository : String
  branch : String
  commit : CommitInfo
  pipeline_name : String
  status : String
  created_on : PyDatetime
  completed_on : Option PyDatetime := none
  vars : List PipelineVariable := []
  steps : List PipelineStep := []
deriving DecidableEq, Repr

/-- Python duration formatting shared by the two duration_str properties:
divmod by 60 twice (floor division, as in Python), then pick the widest
nonzero unit. -/
def fmtDuration (n : Int) : String :=
  let minutes := n.ediv 60
  let seconds := n.emod 60
  let hours := minutes.ediv 60
  let minutes2 := minutes.emod 60
  if hours > 0 then toString hours ++ "h " ++ toString minutes2 ++ "m " ++ toString seconds ++ "s"
  else if minutes2 > 0 then toString minutes2 ++ "m " ++ toString seconds ++ "s"
  else toString seconds ++ "s"

/-- PipelineStep.duration_str: a zero or absent duration_seconds is falsy in
Python, so both yield the placeholder. -/
def PipelineStep.duration_str (s : PipelineStep) : String :=
  match s.duration_seconds with
  | none => "Not completed"
  | some n => if n = 0 then "Not completed" else fmtDuration n

/-- Pipeline.duration_seconds: computed on each read, never stored. The
argument now stands for datetime.now(), which in Python is a naive datetime;
subtraction therefore fails with a TypeError when created_on is aware. -/
def Pipeline.duration_seconds (p : Pipeline) (now : PyDatetime) : Except String Int :=
  match p.completed_on with
  | none => (pySub now p.created_on).map truncToSeconds
  | some c => (pySub c p.created_on).map truncToSeconds

/-- Pipeline.duration_str: formats the computed duration; a zero duration is
falsy and yields the placeholder. -/
def Pipeline.duration_str (p : Pipeline) (now : PyDatetime) : Except String String :=
  match p.duration_seconds now with
  | Except.error e => Except.error e
  | Except.ok n => Except.ok (if n = 0 then "Not started" else fmtDuration n)

/-- Normalization of one raw variable document (models.py lines 108-116):
the value of a secured variable is unconditionally replaced by the fixed
eight-character mask. -/
def normalizeVariable (v : RawVarDoc) : PipelineVariable :=
  { key := v.key.getD ""
  , value := if v.secured.getD false then "********" else v.value.getD ""
  , secured := v.secured.getD false }

/-- The guarded timestamp pattern of models.py (lines 124-127 and 145-146):
parse only when the field is present and truthy (a present empty string is
falsy in Python and yields None), otherwise None. -/
def optTimestamp (f : Option String) : Except String (Option PyDatetime) :=
  match f with
  | none => Except.ok none
  | some s =>
    if s = "" then Except.ok none
    else
      match fromisoformat (zReplace s) with
      | Except.error e => Except.error e
      | Except.ok t => Except.ok (some t)

/-- Normalization of one raw step document (models.py lines 120-134): the
duration is computed only when both timestamps are present, truncated to whole
seconds. -/
def normalizeStep (sd : RawStepDoc) : Except String PipelineStep :=
  match optTimestamp sd.started_on with
  | Except.error e => Except.error e
  | Except.ok st =>
    match optTimestamp sd.completed_on with
    | Except.error e => Except.error e
    | Except.ok en =>
      let base : PipelineStep :=
        { name := sd.name.getD ""
        , status := (sd.state.getD {}).name.getD ""
        , start_time := st
        , end_time := en
        , duration_seconds := none }
      match st, en with
      | some a, some b =>
        match pySub b a with
        | Except.error e => Except.error e
        | Except.ok m => Except.ok { base with duration_seconds := some (truncToSeconds m) }
      | _, _ => Except.ok base

/-- Pipeline.from_api_response (models.py lines 87-149): builds the commit
info (parsing its date unconditionally from a possibly-empty string), masks
secured variables, normalizes steps, parses created_on unconditionally and
completed_on only when present and non-empty. Any ValueError raised by a parse
makes the whole normalization fail. -/
def Pipeline.from_api_response (data : RawPipelineDoc) : Except String Pipeline :=
  match fromisoformat (zReplace ((data.commit.getD {}).date.getD "")) with
  | Except.error e => Except.error e
  | Except.ok cdate =>
    match data.steps.mapM normalizeStep with
    | Except.error e => Except.error e
    | Except.ok steps =>
      match fromisoformat (zReplace (data.created_on.getD "")) with
      | Except.error e => Except.error e
      | Except.ok created =>
        match optTimestamp data.completed_on with
        | Except.error e => Except.error e
        | Except.ok completed =>
          Except.ok
            { uuid := data.uuid.getD ""
            , repository := (data.repository.getD {}).full_name.getD ""
            , branch := (data.target.getD {}).ref_name.getD ""
            , commit :=
                { hash := (data.commit.getD {}).hash.getD ""
                , message := (data.commit.getD {}).message.getD ""
                , author := ((data.commit.getD {}).author.getD {}).display_name.getD ""
                , date := cdate }
            , pipeline_name := ((data.target.getD {}).selector.getD {}).pattern.getD "default"
            , status := (data.state.getD {}).name.getD ""
            , created_on := created
            , completed_on := completed
            , vars := data.vars.map normalizeVariable
            , steps := steps }

/-- The value shown for a variable by PipelineDisplay.display_pipeline
(display.py lines 95-97): secured variables are masked again at render time. -/
def displayVarValue (v : PipelineVariable) : String :=
  if v.secured then "********" else v.value

/-!
The API client (api.py) and the refresh engine (cli.py). The HTTP transport is
the external collaborator: a FetchOracle gives, per refresh cycle, the result
of each request the client can make (a raw document, a list response, or a
transport-level error). get_latest_pipeline is the part of api.py that is
logic rather than transport: the empty-result check and the choice of the
first (latest) element.
-/

/-- Responses of the black-box transport, indexed by refresh cycle (0-based)
and carrying the arguments each client method passes. An Except.error models
a requests exception (transport failure). -/
structure FetchOracle where
  getPipeline : Nat → String → String → Except String RawPipelineDoc
  listPipelines : Nat → String → Option String → Except String (List RawPipelineDoc)
  getSteps : Nat → String → String → Except String (List RawStepDoc)
  getVariables : Nat → String → String → Except String (List RawVarDoc)

/-- BitbucketAPIClient.get_latest_pipeline (api.py lines 91-114), after the
transport returned the values array of the list response: an empty result set
raises a ValueError naming the repository, otherwise the first (latest)
element is returned. -/
def get_latest_pipeline (repo_slug : String) (values : List RawPipelineDoc) :
    Except String RawPipelineDoc :=
  match values with
  | [] => Except.error ("No pipelines found for repository " ++ repo_slug)
  | d :: _ => Except.ok d

/-- The update_pipeline closure of cli.py (lines 39-64), at refresh cycle i:
fetch by explicit uuid when one was given on the command line, otherwise run
the latest-on-branch query; then fetch steps and variables for the returned
uuid, attach them, and normalize. Every exception is caught, reported, and
turned into None. The captured pipeline_uuid option never changes between
cycles, so the branch of the conditional is the same on every cycle. -/
def update_pipeline (O : FetchOracle) (repo : String)
    (pipeline_uuid branch : Option String) (i : Nat) : Option Pipeline :=
  let r : Except String Pipeline :=
    match
      (match pipeline_uuid with
       | some u => O.getPipeline i repo u
       | none =>
         match O.listPipelines i repo branch with
         | Except.error e => Except.error e
         | Except.ok vs => get_latest_pipeline repo vs) with
    | Except.error e => Except.error e
    | Except.ok pipeline_data =>
      match pipeline_data.uuid with
      | none => Except.error "KeyError: uuid"
      | some u =>
        match O.getSteps i repo u with
        | Except.error e => Except.error e
        | Except.ok steps_data =>
          match O.getVariables i repo u with
          | Except.error e => Except.error e
          | Except.ok variables_data =>
            Pipeline.from_api_response
              { pipeline_data with steps := steps_data, vars := variables_data }
  match r with
  | Except.ok p => some p
  | Except.error _ => none

/-- The terminal-status list of cli.py line 79. -/
def terminal_statuses : List String :=
  ["COMPLETED", "SUCCESSFUL", "FAILED", "STOPPED", "ERROR"]

/-- The stop condition of the refresh loop (cli.py line 79): the cycle must
have produced a snapshot and its status must be in the terminal list. A failed
cycle (None) never stops the loop. -/
def stops : Option Pipeline → Bool
  | some p => terminal_statuses.contains p.status
  | none => false

/-- How the monitor command ends: abort with exit code 1 after a failed first
cycle, fall through after a single-shot run, break out of the loop on a
terminal snapshot, or still looping when the observation fuel runs out. -/
inductive ExitKind
  | fatal
  | singleShot
  | terminalStop
  | fuelOut
deriving DecidableEq, Repr

/-- Observable trace of one monitor run: how many fetch cycles ran, how many
sleeps happened, and how the run ended. -/
structure Trace where
  cycles : Nat
  sleeps : Nat
  exit : ExitKind
deriving DecidableEq, Repr

/-- The while-True refresh loop of cli.py (lines 74-82): each iteration sleeps
first, then runs update_pipeline, then breaks if the snapshot is terminal.
outcomes i is what update_pipeline returns on its (i+1)-th call; fuel bounds
the number of iterations we observe. -/
def refreshLoop (outcomes : Nat → Option Pipeline) :
    Nat → Nat → Nat → Nat → Trace
  | 0, _, cycles, sleeps => { cycles := cycles, sleeps := sleeps, exit := ExitKind.fuelOut }
  | fuel + 1, i, cycles, sleeps =>
    if stops (outcomes i) then
      { cycles := cycles + 1, sleeps := sleeps + 1, exit := ExitKind.terminalStop }
    else
      refreshLoop outcomes fuel (i + 1) (cycles + 1) (sleeps + 1)

/-- The monitor command of cli.py (lines 66-82) after argument validation: run
the initial update (cycle 1); a failed first cycle exits with code 1; with
refresh interval 0 stop after the single shot without examining the status;
otherwise enter the refresh loop. The status of the first snapshot is never
examined. -/
def monitor_pipeline (refresh : Nat) (outcomes : Nat → Option Pipeline)
    (fuel : Nat) : Trace :=
  match outcomes 0 with
  | none => { cycles := 1, sleeps := 0, exit := ExitKind.fatal }
  | some _ =>
    if refresh = 0 then { cycles := 1, sleeps := 0, exit := ExitKind.singleShot }
    else refreshLoop outcomes fuel 1 1 0

/-!
Helper definitions and lemmas shared by the claim theorems.
-/

/-- Decidable equality of Except values with decidable components. -/
instance {ε α : Type} [DecidableEq ε] [DecidableEq α] : DecidableEq (Except ε α) := fun x y =>
  match x, y with
  | Except.ok a, Except.ok b =>
    if h : a = b then isTrue (by rw [h]) else isFalse (by intro hc; cases hc; exact h rfl)
  | Except.error a, Except.error b =>
    if h : a = b then isTrue (by rw [h]) else isFalse (by intro hc; cases hc; exact h rfl)
  | Except.ok _, Except.error _ => isFalse (by intro hc; cases hc)
  | Except.error _, Except.ok _ => isFalse (by intro hc; cases hc)

/-- Whether an Except value is a success. -/
def isOkE {α : Type} : Except String α → Bool
  | Except.ok _ => true
  | Except.error _ => false

/-- Whether an optional raw string field is present and non-empty (truthy in
Python). -/
def presentNonempty : Option String → Bool
  | none => false
  | some s => s != ""

/-- Two raw variable documents that agree on key and secured flag and either
are both secured or carry the same value. -/
def varAgree (a b : RawVarDoc) : Prop :=
  a.key = b.key ∧ a.secured = b.secured ∧ (a.secured = some true ∨ a.value = b.value)

lemma normalizeVariable_agree {a b : RawVarDoc} (h : varAgree a b) :
    normalizeVariable a = normalizeVariable b := by
  obtain ⟨hk, hs, hv⟩ := h
  rcases hv with hv | hv
  · have hb : b.secured = some true := hs ▸ hv
    simp [normalizeVariable, hk, hs, hb]
  · simp [normalizeVariable, hk, hs, hv]

lemma map_normalizeVariable_agree {vs1 vs2 : List RawVarDoc}
    (h : List.Forall₂ varAgree vs1 vs2) :
    vs1.map normalizeVariable = vs2.map normalizeVariable := by
  induction h with
  | nil => rfl
  | cons hab _ ih => simp [List.map, normalizeVariable_agree hab, ih]

lemma optTimestamp_ok_isSome {f : Option String} {o : Option PyDatetime}
    (h : optTimestamp f = Except.ok o) : o.isSome = presentNonempty f := by
  cases f with
  | none =>
    simp only [optTimestamp] at h
    cases h
    rfl
  | some s =>
    by_cases hs : s = ""
    · subst hs
      simp only [optTimestamp, if_pos rfl] at h
      cases h
      rfl
    · simp only [optTimestamp, if_neg hs] at h
      cases hp : fromisoformat (zReplace s) with
      | error e => rw [hp] at h; cases h
      | ok t =>
        rw [hp] at h
        cases h
        simp [presentNonempty, hs]

lemma from_api_response_ok_completed {d : RawPipelineDoc} {p : Pipeline}
    (h : Pipeline.from_api_response d = Except.ok p) :
    p.completed_on.isSome = presentNonempty d.completed_on := by
  unfold Pipeline.from_api_response at h
  cases h1 : fromisoformat (zReplace ((d.commit.getD {}).date.getD "")) with
  | error e => rw [h1] at h; cases h
  | ok cdate =>
    rw [h1] at h
    cases h2 : d.steps.mapM normalizeStep with
    | error e => rw [h2] at h; cases h
    | ok steps =>
      rw [h2] at h
      cases h3 : fromisoformat (zReplace (d.created_on.getD "")) with
      | error e => rw [h3] at h; cases h
      | ok created =>
        rw [h3] at h
        cases h4 : optTimestamp d.completed_on with
        | error e => rw [h4] at h; cases h
        | ok completed =>
          rw [h4] at h
          cases h
          exact optTimestamp_ok_isSome h4

lemma update_pipeline_list_error {O : FetchOracle} {repo : String}
    {branch : Option String} {i : Nat} {e : String}
    (h : O.listPipelines i repo branch = Except.error e) :
    update_pipeline O repo none branch i = none := by
  unfold update_pipeline
  rw [h]

lemma update_pipeline_list_empty {O : FetchOracle} {repo : String}
    {branch : Option String} {i : Nat}
    (h : O.listPipelines i repo branch = Except.ok []) :
    update_pipeline O repo none branch i = none := by
  unfold update_pipeline
  rw [h]
  rfl

lemma refreshLoop_stop_spec (outcomes : Nat → Option Pipeline) :
    ∀ (k i cycles sleeps fuel : Nat),
      (∀ j, i ≤ j → j < i + k → stops (outcomes j) = false) →
      stops (outcomes (i + k)) = true → k < fuel →
      refreshLoop outcomes fuel i cycles sleeps =
        { cycles := cycles + k + 1, sleeps := sleeps + k + 1, exit := ExitKind.terminalStop } := by
  intro k
  induction k with
  | zero =>
    intro i cycles sleeps fuel _ hstop hfuel
    match fuel, hfuel with
    | f + 1, _ =>
      simp only [refreshLoop]
      rw [show i + 0 = i from rfl] at hstop
      rw [hstop]
      simp
  | succ k ih =>
    intro i cycles sleeps fuel hmid hstop hfuel
    match fuel, hfuel with
    | f + 1, hfuel =>
      simp only [refreshLoop]
      have hni : stops (outcomes i) = false := hmid i (Nat.le_refl i) (by omega)
      rw [hni]
      simp only [Bool.false_eq_true, if_false]
      have := ih (i + 1) (cycles + 1) (sleeps + 1) f
        (fun j hj1 hj2 => hmid j (by omega) (by omega))
        (by rw [show i + 1 + k = i + (k + 1) from by omega]; exact hstop)
        (by omega)
      rw [this]
      congr 1 <;> omega

lemma refreshLoop_cycles_mono (outcomes : Nat → Option Pipeline) :
    ∀ (fuel i cycles sleeps : Nat),
      cycles ≤ (refreshLoop outcomes fuel i cycles sleeps).cycles := by
  intro fuel
  induction fuel with
  | zero => intro i cycles sleeps; exact Nat.le_refl _
  | succ f ih =>
    intro i cycles sleeps
    simp only [refreshLoop]
    by_cases h : stops (outcomes i) = true
    · rw [h]; simp
    · rw [Bool.not_eq_true] at h
      rw [h]
      simp only [Bool.false_eq_true, if_false]
      exact Nat.le_trans (by omega) (ih (i + 1) (cycles + 1) (sleeps + 1))

lemma refreshLoop_cycles_run (outcomes : Nat → Option Pipeline) :
    ∀ (k i cycles sleeps fuel : Nat),
      (∀ j, i ≤ j → j < i + k → stops (outcomes j) = false) → k + 1 ≤ fuel →
      cycles + k + 1 ≤ (refreshLoop outcomes fuel i cycles sleeps).cycles := by
  intro k
  induction k with
  | zero =>
    intro i cycles sleeps fuel _ hfuel
    match fuel, hfuel with
    | f + 1, _ =>
      simp only [refreshLoop]
      by_cases h : stops (outcomes i) = true
      · rw [h]; simp
      · rw [Bool.not_eq_true] at h
        rw [h]
        simp only [Bool.false_eq_true, if_false]
        exact Nat.le_trans (by omega) (refreshLoop_cycles_mono outcomes f (i + 1) (cycles + 1) (sleeps + 1))
  | succ k ih =>
    intro i cycles sleeps fuel hmid hfuel
    match fuel, hfuel with
    | f + 1, hfuel =>
      simp only [refreshLoop]
      have hni : stops (outcomes i) = false := hmid i (Nat.le_refl i) (by omega)
      rw [hni]
      simp only [Bool.false_eq_true, if_false]
      have := ih (i + 1) (cycles + 1) (sleeps + 1) f
        (fun j hj1 hj2 => hmid j (by omega) (by omega)) (by omega)
      omega

/-!
Concrete fixtures used by counterexamples and witnesses.
-/

/-- A timestamp string in the Z-suffixed form the upstream API emits. -/
def tsZ : String := "2023-01-01T00:00:00Z"

/-- The PyDatetime value tsZ parses to after Z-replacement. -/
def tZ : PyDatetime := { micros := 1672531200000000, aware := true }

/-- A raw pipeline document for a running pipeline with uuid P1. -/
def docP1 : RawPipelineDoc :=
  { uuid := some "P1"
  , state := some { name := some "RUNNING" }
  , created_on := some tsZ
  , commit := some { date := some tsZ } }

/-- A raw pipeline document for a running pipeline with uuid P2. -/
def docP2 : RawPipelineDoc := { docP1 with uuid := some "P2" }

/-- A raw pipeline document for a successfully completed pipeline. -/
def docS : RawPipelineDoc :=
  { docP1 with uuid := some "P3", state := some { name := some "SUCCESSFUL" } }

/-- A normalized running pipeline snapshot. -/
def runP : Pipeline :=
  { uuid := "P1", repository := "", branch := ""
  , commit := { hash := "", message := "", author := "", date := tZ }
  , pipeline_name := "default", status := "RUNNING", created_on := tZ }

/-- A normalized successful pipeline snapshot. -/
def okP : Pipeline := { runP with status := "SUCCESSFUL" }

/-- Outcome stream whose statuses are RUNNING, RUNNING, SUCCESSFUL, ... -/
def outcomesRRS : Nat → Option Pipeline :=
  fun i => if i ≤ 1 then some runP else some okP

/-!
C1. Secured variables are masked with the fixed eight-character literal.
-/

/-- C1: a raw variable whose secured flag is true normalizes to the fixed
eight-character mask regardless of its raw value; two raw pipeline documents
that differ only in the raw values of secured variables normalize to the same
Pipeline; and the renderer masks secured variables again, so the real value
never reaches the render output. -/
theorem C1_secured_mask :
    (∀ v : RawVarDoc, v.secured = some true → (normalizeVariable v).value = "********") ∧
    (∀ (d : RawPipelineDoc) (vs1 vs2 : List RawVarDoc), List.Forall₂ varAgree vs1 vs2 →
      Pipeline.from_api_response { d with vars := vs1 } =
        Pipeline.from_api_response { d with vars := vs2 }) ∧
    (∀ v : PipelineVariable, v.secured = true → displayVarValue v = "********") := by
  refine ⟨?_, ?_, ?_⟩
  · intro v hv
    simp [normalizeVariable, hv]
  · intro d vs1 vs2 h
    have hmap := map_normalizeVariable_agree h
    cases d
    simp only [Pipeline.from_api_response]
    rw [hmap]
  · intro v hv
    simp [displayVarValue, hv]

/-- C1 witness: the mask, the two-document agreement, and the render masking
at concrete secret values. -/
theorem C1_secured_mask_witness :
    (normalizeVariable { key := some "TOKEN", value := some "hunter2", secured := some true }).value = "********" ∧
    Pipeline.from_api_response { docP1 with vars := [{ key := some "TOKEN", value := some "hunter2", secured := some true }] } =
      Pipeline.from_api_response { docP1 with vars := [{ key := some "TOKEN", value := some "swordfish", secured := some true }] } ∧
    displayVarValue { key := "TOKEN", value := "x", secured := true } = "********" :=
  ⟨C1_secured_mask.1 _ rfl,
   C1_secured_mask.2.1 docP1 _ _
     (List.Forall₂.cons ⟨rfl, rfl, Or.inl rfl⟩ List.Forall₂.nil),
   C1_secured_mask.2.2 _ rfl⟩

/-!
C2. The claim says a terminal status stops the loop after every snapshot,
including the very first. The code only examines the status of snapshots
produced inside the while loop: a terminal first snapshot still causes one
more sleep and one more fetch cycle.
-/

/-- C2 counterexample: with interval 1 and every fetch returning a SUCCESSFUL
snapshot, the first snapshot is terminal, yet the engine sleeps once more and
runs a second cycle before stopping, instead of stopping after cycle 1 with no
further sleep. -/
theorem C2_first_snapshot_sleeps_again :
    stops (some okP) = true ∧
    monitor_pipeline 1 (fun _ => some okP) 5 =
      { cycles := 2, sleeps := 1, exit := ExitKind.terminalStop } ∧
    (monitor_pipeline 1 (fun _ => some okP) 5).sleeps ≠ 0 := by
  refine ⟨by decide, by decide, by decide⟩

/-- C2 amended: for every interval > 0, the first snapshot's status is never
examined; after each snapshot from the second cycle on whose status is
terminal the loop stops at once and never sleeps again, so if the first
terminal snapshot in the loop is on cycle k+1 (k ≥ 1) the engine performs
exactly k+1 cycles and k sleeps. For statuses [RUNNING, RUNNING, SUCCESSFUL]
it performs exactly 3 cycles and stops after the 3rd. -/
theorem C2_terminal_stop_amended (refresh fuel k : Nat)
    (outcomes : Nat → Option Pipeline)
    (hr : refresh ≠ 0) (hk : 1 ≤ k) (h0 : (outcomes 0).isSome = true)
    (hmid : ∀ j, 1 ≤ j → j < k → stops (outcomes j) = false)
    (hstop : stops (outcomes k) = true) (hfuel : k ≤ fuel) :
    monitor_pipeline refresh outcomes fuel =
      { cycles := k + 1, sleeps := k, exit := ExitKind.terminalStop } := by
  cases h : outcomes 0 with
  | none => rw [h] at h0; cases h0
  | some p =>
    simp only [monitor_pipeline, h, if_neg hr]
    match k, hk with
    | m + 1, _ =>
      have := refreshLoop_stop_spec outcomes m 1 1 0 fuel
        (fun j hj1 hj2 => hmid j hj1 (by omega))
        (by rw [show 1 + m = m + 1 from by omega]; exact hstop)
        (by omega)
      rw [this, Trace.mk.injEq]
      refine ⟨by omega, by omega, rfl⟩

/-- C2 witness: the amended theorem at the concrete stream RUNNING, RUNNING,
SUCCESSFUL with interval 1: exactly 3 cycles, 2 sleeps, terminal stop. -/
theorem C2_terminal_stop_witness :
    monitor_pipeline 1 outcomesRRS 2 =
      { cycles := 3, sleeps := 2, exit := ExitKind.terminalStop } :=
  C2_terminal_stop_amended 1 2 2 outcomesRRS (by decide) (by decide) (by decide)
    (fun j hj1 hj2 => by
      have hj : j = 1 := by omega
      subst hj
      decide)
    (by decide) (by decide)

/-!
C3. The claim says a latest-on-branch resolution is pinned to the pipeline
found on cycle 1 and later cycles re-fetch it by identifier. In the code the
update closure tests only the immutable command-line pipeline_uuid option, so
with no explicit uuid every cycle re-runs the latest-on-branch query.
-/

/-- Oracle whose latest-on-branch listing returns pipeline P1 on the first
cycle and pipeline P2 afterwards, and which fails every fetch-by-uuid
request; steps and variables are empty. -/
def oracleC3 : FetchOracle :=
  { getPipeline := fun _ _ _ => Except.error "TransportError: no by-uuid request expected"
  , listPipelines := fun i _ _ => Except.ok [if i = 0 then docP1 else docP2]
  , getSteps := fun _ _ _ => Except.ok []
  , getVariables := fun _ _ _ => Except.ok [] }

/-- C3 counterexample: with oracleC3, branch resolution on cycle 1 yields P1,
but the cycle-2 snapshot is P2 — produced by re-running the latest-on-branch
query (the fetch-by-uuid method of this oracle always fails, so no cycle
fetched by identifier) — not the pinned P1 of the claim. -/
theorem C3_resolution_not_pinned :
    (update_pipeline oracleC3 "ws/repo" none (some "main") 0).map Pipeline.uuid = some "P1" ∧
    (update_pipeline oracleC3 "ws/repo" none (some "main") 1).map Pipeline.uuid = some "P2" ∧
    ("P2" : String) ≠ "P1" := by
  refine ⟨by decide, by decide, by decide⟩

/-- C3 amended: when no explicit identifier is given, every refresh cycle
(not only the first) re-runs the latest-on-branch query; the cycle-i snapshot
is the normalization of the first element of the cycle-i list response, so the
resolution is never pinned to the pipeline found on cycle 1. -/
theorem C3_reresolves_every_cycle (O : FetchOracle) (repo : String)
    (branch : Option String) (i : Nat) (d : RawPipelineDoc)
    (rest : List RawPipelineDoc) (u : String) (sd : List RawStepDoc)
    (vd : List RawVarDoc) (p : Pipeline)
    (hlist : O.listPipelines i repo branch = Except.ok (d :: rest))
    (huuid : d.uuid = some u)
    (hsteps : O.getSteps i repo u = Except.ok sd)
    (hvars : O.getVariables i repo u = Except.ok vd)
    (hnorm : Pipeline.from_api_response { d with steps := sd, vars := vd } = Except.ok p) :
    update_pipeline O repo none branch i = some p := by
  rw [show ({ d with steps := sd, vars := vd } : RawPipelineDoc) =
        { d with uuid := some u, steps := sd, vars := vd } from by rw [← huuid]] at hnorm
  simp only [update_pipeline, hlist, get_latest_pipeline, huuid, hsteps, hvars, hnorm]

/-- C3 witness: the amended theorem at cycle 1 of oracleC3, where the
latest-on-branch response is P2. -/
theorem C3_reresolves_witness :
    update_pipeline oracleC3 "ws/repo" none (some "main") 1 =
      some { uuid := "P2", repository := "", branch := ""
           , commit := { hash := "", message := "", author := "", date := tZ }
           , pipeline_name := "default", status := "RUNNING", created_on := tZ } :=
  C3_reresolves_every_cycle oracleC3 "ws/repo" (some "main") 1 docP2 [] "P2" [] [] _
    (by decide) (by decide) (by decide) (by decide) (by decide)

/-!
C4. The claim says absence of any optional field, including the top-level
created_on and the commit date, is handled by defaulting, with no parse ever
attempted on an empty string. In the code those two timestamps are parsed
unconditionally from the dict .get default "", so their absence raises.
-/

/-- A raw document whose commit date is valid but whose created_on (and every
other optional field) is absent. -/
def docNoCreated : RawPipelineDoc := { commit := some { date := some tsZ } }

/-- C4 counterexample: normalization of a document with an absent created_on
attempts to parse the empty string and fails, instead of succeeding with a
defaulted value. -/
theorem C4_missing_created_on_fails :
    Pipeline.from_api_response docNoCreated =
      Except.error "Invalid isoformat string: " := by
  decide

/-- C4 amended: when the top-level created_on and the commit date are present
and parse, every other optional field may be absent and normalization succeeds
with empty-string defaults, the literal default pipeline name, no variables,
no steps and an absent completed_on; only those two timestamps are required,
and their absence leads to a parse of the empty string, which fails. -/
theorem C4_defaults_amended (cs ds : String) (tc td : PyDatetime)
    (hc : fromisoformat (zReplace cs) = Except.ok tc)
    (hd : fromisoformat (zReplace ds) = Except.ok td) :
    Pipeline.from_api_response { created_on := some cs, commit := some { date := some ds } } =
      Except.ok
        { uuid := "", repository := "", branch := ""
        , commit := { hash := "", message := "", author := "", date := td }
        , pipeline_name := "default", status := "", created_on := tc
        , completed_on := none, vars := [], steps := [] } := by
  unfold Pipeline.from_api_response
  simp only [Option.getD_some, Option.getD_none]
  rw [hd, hc]
  rfl

/-- C4 witness: the amended theorem at the concrete Z-suffixed timestamp. -/
theorem C4_defaults_witness :
    Pipeline.from_api_response { created_on := some tsZ, commit := some { date := some tsZ } } =
      Except.ok
        { uuid := "", repository := "", branch := ""
        , commit := { hash := "", message := "", author := "", date := tZ }
        , pipeline_name := "default", status := "", created_on := tZ
        , completed_on := none, vars := [], steps := [] } :=
  C4_defaults_amended tsZ tsZ tZ tZ (by decide) (by decide)

/-!
C5. The claim says completed_on is present iff the status is terminal. The
normalizer couples completed_on only to the raw completed_on field and never
inspects the status.
-/

/-- A raw document with a RUNNING status and a present, valid completed_on. -/
def docRunningCompleted : RawPipelineDoc :=
  { state := some { name := some "RUNNING" }
  , created_on := some tsZ
  , completed_on := some "2023-01-01T01:00:00Z"
  , commit := some { date := some tsZ } }

/-- C5 counterexample: the normalizer produces a Pipeline whose completed_on
is present while its status RUNNING is not terminal, so the claimed
equivalence fails. -/
theorem C5_completed_without_terminal :
    (Pipeline.from_api_response docRunningCompleted).map
        (fun p => (p.completed_on.isSome, terminal_statuses.contains p.status)) =
      Except.ok (true, false) := by
  decide

/-- C5 amended: for every successfully normalized Pipeline, completed_on is
present iff the raw completed_on field is present and non-empty; the
normalizer enforces no coupling between completed_on and the status. -/
theorem C5_completed_iff_raw_field (d : RawPipelineDoc) (p : Pipeline)
    (h : Pipeline.from_api_response d = Except.ok p) :
    p.completed_on.isSome = presentNonempty d.completed_on :=
  from_api_response_ok_completed h

/-- The normalization of docRunningCompleted. -/
def pRC : Pipeline :=
  { uuid := "", repository := "", branch := ""
  , commit := { hash := "", message := "", author := "", date := tZ }
  , pipeline_name := "default", status := "RUNNING", created_on := tZ
  , completed_on := some { micros := 1672534800000000, aware := true } }

/-- C5 witness: the amended theorem at the concrete document with a present
completed_on and non-terminal status. -/
theorem C5_completed_iff_witness :
    pRC.completed_on.isSome = presentNonempty docRunningCompleted.completed_on :=
  C5_completed_iff_raw_field docRunningCompleted pRC (by decide)

/-!
C6. A failure on the very first cycle aborts with an error exit; the same
failure on a later cycle is reported and the loop retries at the next
interval.
-/

/-- C6: with resolution by branch, a transport failure on the first cycle
yields a fatal exit after exactly one cycle and no sleep; a transport failure
on cycle 3, after a successful first cycle and a non-stopping second cycle,
does not terminate the loop, which goes on to run a fourth cycle. -/
theorem C6_first_cycle_fatal_later_retried :
    (∀ (O : FetchOracle) (repo : String) (branch : Option String)
       (refresh fuel : Nat) (e : String),
       O.listPipelines 0 repo branch = Except.error e →
       monitor_pipeline refresh (update_pipeline O repo none branch) fuel =
         { cycles := 1, sleeps := 0, exit := ExitKind.fatal }) ∧
    (∀ (O : FetchOracle) (repo : String) (branch : Option String)
       (refresh fuel : Nat) (e : String),
       refresh ≠ 0 → 3 ≤ fuel →
       (update_pipeline O repo none branch 0).isSome = true →
       stops (update_pipeline O repo none branch 1) = false →
       O.listPipelines 2 repo branch = Except.error e →
       4 ≤ (monitor_pipeline refresh (update_pipeline O repo none branch) fuel).cycles) := by
  constructor
  · intro O repo branch refresh fuel e h
    have h0 := update_pipeline_list_error h
    simp only [monitor_pipeline, h0]
  · intro O repo branch refresh fuel e hr hfuel h0 h1 h2
    have hn2 : update_pipeline O repo none branch 2 = none := update_pipeline_list_error h2
    cases h : update_pipeline O repo none branch 0 with
    | none => rw [h] at h0; cases h0
    | some p =>
      simp only [monitor_pipeline, h, if_neg hr]
      have := refreshLoop_cycles_run (update_pipeline O repo none branch) 2 1 1 0 fuel
        (fun j hj1 hj2 => by
          have hj : j = 1 ∨ j = 2 := by omega
          rcases hj with hj | hj
          · subst hj; exact h1
          · subst hj; rw [hn2]; rfl)
        (by omega)
      omega

/-- Oracle that fails with a transport error on the very first cycle. -/
def oracleC6a : FetchOracle :=
  { getPipeline := fun _ _ _ => Except.error "TransportError: connection failed"
  , listPipelines := fun _ _ _ => Except.error "TransportError: connection failed"
  , getSteps := fun _ _ _ => Except.ok []
  , getVariables := fun _ _ _ => Except.ok [] }

/-- Oracle that succeeds with a running pipeline on cycles 1 and 2, fails
with a transport error on cycle 3, and succeeds again afterwards. -/
def oracleC6b : FetchOracle :=
  { getPipeline := fun _ _ _ => Except.error "TransportError: no by-uuid request expected"
  , listPipelines := fun i _ _ =>
      if i = 2 then Except.error "TransportError: connection failed"
      else Except.ok [if i ≤ 2 then docP1 else docS]
  , getSteps := fun _ _ _ => Except.ok []
  , getVariables := fun _ _ _ => Except.ok [] }

/-- C6 witness: the two failure-handling behaviours at concrete oracles: a
first-cycle transport error is fatal after one cycle; a third-cycle transport
error after two good cycles still lets a fourth cycle run. -/
theorem C6_failure_witness :
    monitor_pipeline 1 (update_pipeline oracleC6a "ws/repo" none (some "main")) 5 =
      { cycles := 1, sleeps := 0, exit := ExitKind.fatal } ∧
    4 ≤ (monitor_pipeline 1 (update_pipeline oracleC6b "ws/repo" none (some "main")) 3).cycles :=
  ⟨C6_first_cycle_fatal_later_retried.1 oracleC6a "ws/repo" (some "main") 1 5
     "TransportError: connection failed" (by decide),
   C6_first_cycle_fatal_later_retried.2 oracleC6b "ws/repo" (some "main") 1 3
     "TransportError: connection failed" (by decide) (by decide) (by decide)
     (by decide) (by decide)⟩

/-!
C7. The claim says an empty latest-on-branch result is fatal and surfaced
immediately on any cycle, never retried. In the code the resulting ValueError
is fatal only on the first cycle; inside the loop it is caught by the except
clause of update_pipeline like any other failure and the loop retries.
-/

/-- Oracle whose latest-on-branch listing succeeds on cycle 1, is empty on
cycle 2 and returns a successful pipeline afterwards. -/
def oracleC7 : FetchOracle :=
  { getPipeline := fun _ _ _ => Except.error "TransportError: no by-uuid request expected"
  , listPipelines := fun i _ _ =>
      if i = 0 then Except.ok [docP1]
      else if i = 1 then Except.ok []
      else Except.ok [docS]
  , getSteps := fun _ _ _ => Except.ok []
  , getVariables := fun _ _ _ => Except.ok [] }

/-- C7 counterexample: with oracleC7 the empty result set on cycle 2 raises
the no-pipelines ValueError, yet the engine is not stopped by it: it runs a
third cycle, which finds a terminal pipeline and stops normally. The failure
on cycle 2 was retried, contradicting fatal-on-any-cycle. -/
theorem C7_not_found_retried :
    oracleC7.listPipelines 1 "ws/repo" (some "main") = Except.ok [] ∧
    monitor_pipeline 1 (update_pipeline oracleC7 "ws/repo" none (some "main")) 5 =
      { cycles := 3, sleeps := 2, exit := ExitKind.terminalStop } := by
  refine ⟨by decide, by decide⟩

/-- C7 amended: an empty latest-on-branch result set is fatal only on the
first cycle, where it aborts after one cycle with no sleep; on any later
cycle the resulting error is caught like every other per-cycle failure and
the loop retries, running at least one further cycle. -/
theorem C7_not_found_first_cycle_only :
    (∀ (O : FetchOracle) (repo : String) (branch : Option String)
       (refresh fuel : Nat),
       O.listPipelines 0 repo branch = Except.ok [] →
       monitor_pipeline refresh (update_pipeline O repo none branch) fuel =
         { cycles := 1, sleeps := 0, exit := ExitKind.fatal }) ∧
    (∀ (O : FetchOracle) (repo : String) (branch : Option String)
       (refresh fuel i : Nat),
       refresh ≠ 0 → 1 ≤ i → i + 1 ≤ fuel →
       (update_pipeline O repo none branch 0).isSome = true →
       (∀ j, 1 ≤ j → j < i → stops (update_pipeline O repo none branch j) = false) →
       O.listPipelines i repo branch = Except.ok [] →
       i + 2 ≤ (monitor_pipeline refresh (update_pipeline O repo none branch) fuel).cycles) := by
  constructor
  · intro O repo branch refresh fuel h
    have h0 := update_pipeline_list_empty h
    simp only [monitor_pipeline, h0]
  · intro O repo branch refresh fuel i hr hi hfuel h0 hmid hempty
    have hni : update_pipeline O repo none branch i = none := update_pipeline_list_empty hempty
    cases h : update_pipeline O repo none branch 0 with
    | none => rw [h] at h0; cases h0
    | some p =>
      simp only [monitor_pipeline, h, if_neg hr]
      have := refreshLoop_cycles_run (update_pipeline O repo none branch) i 1 1 0 fuel
        (fun j hj1 hj2 => by
          by_cases hj : j = i
          · subst hj; rw [hni]; rfl
          · exact hmid j hj1 (by omega))
        (by omega)
      omega

/-- Oracle whose latest-on-branch listing is empty from the very first
cycle. -/
def oracleC7a : FetchOracle :=
  { getPipeline := fun _ _ _ => Except.error "TransportError: no by-uuid request expected"
  , listPipelines := fun _ _ _ => Except.ok []
  , getSteps := fun _ _ _ => Except.ok []
  , getVariables := fun _ _ _ => Except.ok [] }

/-- C7 witness: a first-cycle empty result aborts after one cycle; a
second-cycle empty result still lets a third cycle run. -/
theorem C7_not_found_witness :
    monitor_pipeline 1 (update_pipeline oracleC7a "ws/repo" none (some "main")) 5 =
      { cycles := 1, sleeps := 0, exit := ExitKind.fatal } ∧
    3 ≤ (monitor_pipeline 1 (update_pipeline oracleC7 "ws/repo" none (some "main")) 5).cycles :=
  ⟨C7_not_found_first_cycle_only.1 oracleC7a "ws/repo" (some "main") 1 5 (by decide),
   C7_not_found_first_cycle_only.2 oracleC7 "ws/repo" (some "main") 1 5 1
     (by decide) (by decide) (by decide) (by decide)
     (fun j hj1 hj2 => absurd (Nat.lt_of_le_of_lt hj1 hj2) (by omega))
     (by decide)⟩

/-!
C8. The claim says a present-but-invalid completed_on fails with an error
naming the field, and an absent completed_on yields success with an absent
value. In the code a present empty string is falsy and treated exactly like
absence, and the raised ValueError names the malformed value, never the field.
-/

/-- A raw document identical to docRunningCompleted but with an empty-string
completed_on. -/
def docEmptyCompleted : RawPipelineDoc := { docRunningCompleted with completed_on := some "" }

/-- A raw document identical to docRunningCompleted but with a malformed
completed_on. -/
def docBadCompleted : RawPipelineDoc := { docRunningCompleted with completed_on := some "garbage" }

/-- C8 counterexample: the empty string is present and is not a valid
ISO-8601 timestamp, yet normalization does not fail: it succeeds with an
absent completed_on, because Python truthiness conflates a present empty
string with absence. -/
theorem C8_empty_string_not_failed :
    isOkE (fromisoformat (zReplace "")) = false ∧
    (Pipeline.from_api_response docEmptyCompleted).map (fun p => p.completed_on) =
      Except.ok none := by
  refine ⟨by decide, by decide⟩

/-- C8 amended: a present, non-empty completed_on that does not parse makes
normalization fail with the parse ValueError, which names the malformed value
rather than the field; a completed_on that is absent or the present empty
string yields a successfully normalized Pipeline with completed_on absent. -/
theorem C8_malformed_completed_on :
    (∀ (d : RawPipelineDoc) (s : String), d.completed_on = some s → s ≠ "" →
       isOkE (fromisoformat (zReplace s)) = false →
       isOkE (Pipeline.from_api_response d) = false) ∧
    (∀ (d : RawPipelineDoc) (p : Pipeline),
       (d.completed_on = none ∨ d.completed_on = some "") →
       Pipeline.from_api_response d = Except.ok p → p.completed_on = none) ∧
    Pipeline.from_api_response docBadCompleted =
      Except.error "Invalid isoformat string: garbage" := by
  refine ⟨?_, ?_, by decide⟩
  · intro d s hds hs hbad
    unfold Pipeline.from_api_response
    cases h1 : fromisoformat (zReplace ((d.commit.getD {}).date.getD "")) with
    | error e => rfl
    | ok cdate =>
      cases h2 : d.steps.mapM normalizeStep with
      | error e => rfl
      | ok steps =>
        cases h3 : fromisoformat (zReplace (d.created_on.getD "")) with
        | error e => rfl
        | ok created =>
          cases hp : fromisoformat (zReplace s) with
          | error e =>
            have h4 : optTimestamp d.completed_on = Except.error e := by
              rw [hds]
              simp only [optTimestamp, if_neg hs, hp]
            rw [h4]
            rfl
          | ok t => rw [hp] at hbad; cases hbad
  · intro d p hcases h
    have := from_api_response_ok_completed h
    rcases hcases with hc | hc
    · rw [hc] at this
      cases hpc : p.completed_on with
      | none => rfl
      | some t => rw [hpc] at this; cases this
    · rw [hc] at this
      cases hpc : p.completed_on with
      | none => rfl
      | some t => rw [hpc] at this; cases this

/-- The normalization of docEmptyCompleted. -/
def pEC : Pipeline := { pRC with completed_on := none }

/-- C8 witness: the amended theorem at the malformed document and at the
empty-string document. -/
theorem C8_malformed_witness :
    isOkE (Pipeline.from_api_response docBadCompleted) = false ∧
    pEC.completed_on = none :=
  ⟨C8_malformed_completed_on.1 docBadCompleted "garbage" (by decide) (by decide) (by decide),
   C8_malformed_completed_on.2.1 docEmptyCompleted pEC (Or.inr rfl) (by decide)⟩

/-!
C9. The claim says the duration of a Pipeline with an absent completed_on is
now minus created_on, recomputed on each read. The property does read
datetime.now() on each access, but datetime.now() is offset-naive while
every created_on normalized from a Z-suffixed timestamp is offset-aware, so
the subtraction raises a TypeError instead of producing a duration.
-/

/-- A raw document for a pipeline that is still in progress. -/
def docInProgress : RawPipelineDoc :=
  { uuid := some "u9"
  , state := some { name := some "IN_PROGRESS" }
  , created_on := some tsZ
  , commit := some { date := some tsZ } }

/-- datetime.now(): a naive datetime, here one day after tsZ on the local
clock. -/
def pyNow : PyDatetime := { micros := 1672617600000000, aware := false }

/-- C9: reading the duration of the normalized in-progress pipeline (absent
completed_on) at a concrete current time does not return now minus
created_on: it fails with the Python TypeError raised when the naive
datetime.now() is subtracted from by an offset-aware created_on. -/
theorem C9_running_duration_raises :
    (Pipeline.from_api_response docInProgress).map (fun p => p.duration_seconds pyNow) =
      Except.ok (Except.error "TypeError: cannot subtract offset-naive and offset-aware datetimes") := by
  decide

/-!
C10. A step whose started_on and completed_on are present, valid and equal
gets a computed duration of exactly 0 seconds, and its duration_str is the
placeholder: Python truthiness makes a zero duration indistinguishable from
an absent one, for steps and for the pipeline duration alike.
-/

/-- C10: a raw step with equal, valid start and completion timestamps
normalizes to duration_seconds 0 and duration_str "Not completed"; a step
with duration 0 renders exactly like one with an absent duration; and a
pipeline whose computed duration is 0 renders the "Not started" placeholder
reserved for not-yet-started pipelines. -/
theorem C10_zero_duration_placeholder :
    (∀ (sd : RawStepDoc) (s : String) (t : PyDatetime),
       sd.started_on = some s → sd.completed_on = some s → s ≠ "" →
       fromisoformat (zReplace s) = Except.ok t →
       (normalizeStep sd).map (fun st => (st.duration_seconds, st.duration_str)) =
         Except.ok (some 0, "Not completed")) ∧
    (∀ st : PipelineStep,
       PipelineStep.duration_str { st with duration_seconds := some 0 } =
         PipelineStep.duration_str { st with duration_seconds := none }) ∧
    (∀ (p : Pipeline) (now : PyDatetime), p.duration_seconds now = Except.ok 0 →
       p.duration_str now = Except.ok "Not started") := by
  refine ⟨?_, ?_, ?_⟩
  · intro sd s t hst hco hs hp
    have hopt : optTimestamp sd.started_on = Except.ok (some t) := by
      rw [hst]
      simp only [optTimestamp, if_neg hs, hp]
    have hopt2 : optTimestamp sd.completed_on = Except.ok (some t) := by
      rw [hco]
      simp only [optTimestamp, if_neg hs, hp]
    unfold normalizeStep
    rw [hopt, hopt2]
    simp only [pySub, if_pos rfl, sub_self]
    rfl
  · intro st
    rfl
  · intro p now h
    unfold Pipeline.duration_str
    rw [h]
    rfl

/-- A step with equal start and completion timestamps. -/
def stepSame : RawStepDoc :=
  { name := some "build"
  , state := some { name := some "SUCCESSFUL" }
  , started_on := some tsZ
  , completed_on := some tsZ }

/-- A pipeline snapshot created and completed at the same instant. -/
def pSame : Pipeline :=
  { runP with status := "SUCCESSFUL", completed_on := some tZ }

/-- C10 witness: the three placeholder behaviours at concrete values. -/
theorem C10_zero_duration_witness :
    (normalizeStep stepSame).map (fun st => (st.duration_seconds, st.duration_str)) =
      Except.ok (some 0, "Not completed") ∧
    PipelineStep.duration_str { name := "build", status := "SUCCESSFUL", duration_seconds := some 0 } =
      PipelineStep.duration_str { name := "build", status := "SUCCESSFUL", duration_seconds := none } ∧
    pSame.duration_str pyNow = Except.ok "Not started" :=
  ⟨C10_zero_duration_placeholder.1 stepSame tsZ tZ (by decide) (by decide) (by decide) (by decide),
   C10_zero_duration_placeholder.2.1 { name := "build", status := "SUCCESSFUL" },
   C10_zero_duration_placeholder.2.2 pSame pyNow (by decide)⟩
